import Mathlib

/-!
Shallow embedding of the churn-prediction inference service
(`backend/` of the Customer-Churn-Prediction repository).

Python floats are modelled as exact rationals (`ℚ`), pandas single-row
dataframes as association lists from column name to cell value, and
Python exceptions as `Except String`.  External artifacts (the fitted
classifier, scaler and label encoders) are modelled as opaque function
parameters, as the spec treats the Artifact Store as an external
collaborator.
-/

/-- A pandas cell value: a string, a float, an integer, or the NaN
produced by `pd.cut` for out-of-range inputs. -/
inductive PyValue
  | str (s : String)
  | num (q : ℚ)
  | int (z : ℤ)
  | nan
deriving DecidableEq, Repr

/-- Conversion `.astype(str)` applied to a cell (pandas renders NaN as
the string "nan"). -/
def astype_str : PyValue → String
  | .str s => s
  | .num q => toString q
  | .int z => toString z
  | .nan => "nan"

/-- A single-row dataframe: ordered columns with one cell each. -/
abbrev DataFrame := List (String × PyValue)

/-- Raw customer input (`CustomerData` in `backend/models/request.py`):
19 named attributes.  `tenure ≥ 0` and the charge fields `≥ 0` are
enforced by the pydantic schema, hence `ℕ`/`ℚ` here. -/
structure CustomerRecord where
  gender : String
  SeniorCitizen : ℤ
  Partner : String
  Dependents : String
  tenure : ℕ
  PhoneService : String
  MultipleLines : String
  InternetService : String
  OnlineSecurity : String
  OnlineBackup : String
  DeviceProtection : String
  TechSupport : String
  StreamingTV : String
  StreamingMovies : String
  Contract : String
  PaperlessBilling : String
  PaymentMethod : String
  MonthlyCharges : ℚ
  TotalCharges : ℚ
deriving DecidableEq, Repr

/-- `RISK_THRESHOLD_LOW` from `backend/core/config.py`. -/
def RISK_THRESHOLD_LOW : ℚ := 3 / 10

/-- `RISK_THRESHOLD_MEDIUM` from `backend/core/config.py`. -/
def RISK_THRESHOLD_MEDIUM : ℚ := 6 / 10

/-- `PredictionService._get_risk_level` from
`backend/services/prediction.py`. -/
def get_risk_level (probability : ℚ) : String :=
  if probability < RISK_THRESHOLD_LOW then "Low"
  else if probability < RISK_THRESHOLD_MEDIUM then "Medium"
  else "High"

/-- Dynamic column access `df[col]` restricted to the string-valued raw
columns used by the feature-engineering loops of
`DataPreprocessor._engineer_features`. -/
def strCol (r : CustomerRecord) (col : String) : String :=
  if col = "gender" then r.gender
  else if col = "Partner" then r.Partner
  else if col = "Dependents" then r.Dependents
  else if col = "PhoneService" then r.PhoneService
  else if col = "MultipleLines" then r.MultipleLines
  else if col = "InternetService" then r.InternetService
  else if col = "OnlineSecurity" then r.OnlineSecurity
  else if col = "OnlineBackup" then r.OnlineBackup
  else if col = "DeviceProtection" then r.DeviceProtection
  else if col = "TechSupport" then r.TechSupport
  else if col = "StreamingTV" then r.StreamingTV
  else if col = "StreamingMovies" then r.StreamingMovies
  else if col = "Contract" then r.Contract
  else if col = "PaperlessBilling" then r.PaperlessBilling
  else if col = "PaymentMethod" then r.PaymentMethod
  else ""

/-- `service_cols` from `DataPreprocessor._engineer_features`. -/
def service_cols : List String :=
  ["PhoneService", "InternetService", "OnlineSecurity", "OnlineBackup",
   "DeviceProtection", "TechSupport", "StreamingTV", "StreamingMovies"]

/-- The `ServiceCount` accumulation loop of
`DataPreprocessor._engineer_features`: for each service column, add 1
when the value equals "Yes", except `InternetService`, which adds 1
when the value differs from "No". -/
def serviceCount (r : CustomerRecord) : ℕ :=
  service_cols.foldl (fun acc col =>
    if col = "PhoneService" then acc + (if strCol r col = "Yes" then 1 else 0)
    else if col = "InternetService" then acc + (if strCol r col ≠ "No" then 1 else 0)
    else acc + (if strCol r col = "Yes" then 1 else 0)) 0

/-- Spec-side reading of the `ServiceCount` derivation: a service column
is "active" when its value is "Yes", except the internet-service
column, which is active when its value is not "No". -/
def activeService (r : CustomerRecord) (col : String) : Bool :=
  if col = "InternetService" then strCol r col != "No" else strCol r col == "Yes"

/-- The `AvgMonthlyRate` derivation of
`DataPreprocessor._engineer_features`:
`df["TotalCharges"] / df["tenure"].replace(0, 1)`. -/
def avgMonthlyRate (totalCharges : ℚ) (tenure : ℕ) : ℚ :=
  totalCharges / ((if tenure = 0 then 1 else tenure : ℕ) : ℚ)

/-- `premium_services` from `DataPreprocessor._engineer_features`. -/
def premium_services : List String :=
  ["OnlineSecurity", "OnlineBackup", "DeviceProtection", "TechSupport"]

/-- The `PremiumServiceCount` derivation: sum of "Yes" indicators over
the four premium service columns. -/
def premiumServiceCount (r : CustomerRecord) : ℕ :=
  (premium_services.map (fun col => if strCol r col = "Yes" then 1 else 0)).sum

/-- The `HasPremiumServices` derivation: "Yes" iff
`PremiumServiceCount > 0`. -/
def hasPremiumServices (r : CustomerRecord) : String :=
  if premiumServiceCount r > 0 then "Yes" else "No"

/-- The `HasStreaming` derivation: "Yes" iff `StreamingTV` or
`StreamingMovies` equals "Yes". -/
def hasStreaming (r : CustomerRecord) : String :=
  if r.StreamingTV = "Yes" ∨ r.StreamingMovies = "Yes" then "Yes" else "No"

/-- The `ValueSegment` derivation:
`pd.cut(df["MonthlyCharges"], bins=[0, 35, 70, 120], labels=[...])`,
i.e. right-closed intervals (0,35], (35,70], (70,120]; values outside
(0,120] fall in no bin and become NaN. -/
def valueSegment (m : ℚ) : PyValue :=
  if 0 < m ∧ m ≤ 35 then .str "Low Value"
  else if 35 < m ∧ m ≤ 70 then .str "Medium Value"
  else if 70 < m ∧ m ≤ 120 then .str "High Value"
  else .nan

/-- The `HighRiskProfile` derivation: "Yes" iff the contract is
month-to-month and the payment method is electronic check. -/
def highRiskProfile (r : CustomerRecord) : String :=
  if r.Contract = "Month-to-month" ∧ r.PaymentMethod = "Electronic check"
  then "Yes" else "No"

/-- The `FamilyCustomer` derivation: "Yes" iff the customer has a
partner or dependents. -/
def familyCustomer (r : CustomerRecord) : String :=
  if r.Partner = "Yes" ∨ r.Dependents = "Yes" then "Yes" else "No"

/-- `pd.DataFrame([customer_data.dict()])`: the single-row dataframe of
the 19 raw attributes, in pydantic field order. -/
def to_dataframe (r : CustomerRecord) : DataFrame :=
  [("gender", .str r.gender),
   ("SeniorCitizen", .int r.SeniorCitizen),
   ("Partner", .str r.Partner),
   ("Dependents", .str r.Dependents),
   ("tenure", .int r.tenure),
   ("PhoneService", .str r.PhoneService),
   ("MultipleLines", .str r.MultipleLines),
   ("InternetService", .str r.InternetService),
   ("OnlineSecurity", .str r.OnlineSecurity),
   ("OnlineBackup", .str r.OnlineBackup),
   ("DeviceProtection", .str r.DeviceProtection),
   ("TechSupport", .str r.TechSupport),
   ("StreamingTV", .str r.StreamingTV),
   ("StreamingMovies", .str r.StreamingMovies),
   ("Contract", .str r.Contract),
   ("PaperlessBilling", .str r.PaperlessBilling),
   ("PaymentMethod", .str r.PaymentMethod),
   ("MonthlyCharges", .num r.MonthlyCharges),
   ("TotalCharges", .num r.TotalCharges)]

/-- `DataPreprocessor._engineer_features` applied to the single-row
dataframe of a customer record: the raw columns followed by the eleven
engineered columns, in assignment order. -/
def engineer_features (r : CustomerRecord) : DataFrame :=
  to_dataframe r ++
  [("ServiceCount", .int (serviceCount r)),
   ("AvgMonthlyRate", .num (avgMonthlyRate r.TotalCharges r.tenure)),
   ("PremiumServiceCount", .int (premiumServiceCount r)),
   ("HasPremiumServices", .str (hasPremiumServices r)),
   ("HasStreaming", .str (hasStreaming r)),
   ("ValueSegment", valueSegment r.MonthlyCharges),
   ("HighRiskProfile", .str (highRiskProfile r)),
   ("FamilyCustomer", .str (familyCustomer r)),
   ("Tenure_MonthlyCharges", .num (r.tenure * r.MonthlyCharges)),
   ("Tenure_ServiceCount", .int (r.tenure * serviceCount r)),
   ("MonthlyCharges_ServiceCount", .num (r.MonthlyCharges * serviceCount r))]

/-- `categorical_cols` from `DataPreprocessor._encode_features`. -/
def categorical_cols : List String :=
  ["gender", "Partner", "Dependents", "PhoneService", "MultipleLines",
   "InternetService", "OnlineSecurity", "OnlineBackup", "DeviceProtection",
   "TechSupport", "StreamingTV", "StreamingMovies", "Contract",
   "PaperlessBilling", "PaymentMethod", "HasPremiumServices", "HasStreaming",
   "HighRiskProfile", "FamilyCustomer", "ValueSegment"]

/-- The fitted label encoders: a map from categorical column name to the
label-to-code function of that column's encoder.  The encoders are
opaque external artifacts; each `transform` is modelled as a total
function on strings (the behaviour on labels outside the fitted
vocabulary is left undefined by the design). -/
abbrev Encoders := List (String × (String → ℤ))

/-- Lookup `label_encoders[col]` (with `col in label_encoders` as the
presence test). -/
def lookupEncoder (encs : Encoders) (col : String) : Option (String → ℤ) :=
  (encs.find? (fun p => p.1 == col)).map Prod.snd

/-- One assignment `df[col] = label_encoders[col].transform(df[col].astype(str))`
applied to a single cell. -/
def encodeCell (enc : String → ℤ) (v : PyValue) : PyValue :=
  .int (enc (astype_str v))

/-- One iteration of the encoding loop of
`DataPreprocessor._encode_features`: if `col` is a column of `df` and
has a fitted encoder, replace that column's value by its code,
otherwise leave the frame unchanged. -/
def encodeStep (encs : Encoders) (df : DataFrame) (col : String) : DataFrame :=
  if df.any (fun p => p.1 == col) then
    match lookupEncoder encs col with
    | some enc => df.map (fun p => if p.1 = col then (p.1, encodeCell enc p.2) else p)
    | none => df
  else df

/-- `DataPreprocessor._encode_features`: the encoding loop over the
fixed categorical-column list. -/
def encode_features (encs : Encoders) (df : DataFrame) : DataFrame :=
  categorical_cols.foldl (encodeStep encs) df

/-- Spec-side per-column reading of the encoding stage: a column in both
the fixed categorical-column list and the encoder mapping has its value
replaced by the encoder's integer code; every other column passes
through unchanged. -/
def encodePointwise (encs : Encoders) (p : String × PyValue) : String × PyValue :=
  if p.1 ∈ categorical_cols then
    match lookupEncoder encs p.1 with
    | some enc => (p.1, encodeCell enc p.2)
    | none => p
  else p

/-- The classifier artifact: `predict` yields the predicted class of
the (single) row and `predict_proba` the positive-class probability
`predict_proba(x)[0][1]`. -/
structure Classifier where
  predict : List ℚ → ℤ
  predict_proba : List ℚ → ℚ

/-- The loaded artifact bundle the pipeline reads from `model_manager`. -/
structure Artifacts where
  model : Classifier
  scaler : List ℚ → List ℚ
  label_encoders : Encoders
  feature_names : List String

/-- Column selection `df[model_manager.feature_names]`: pick the listed
columns in order; a missing column raises a `KeyError`. -/
def select_columns (df : DataFrame) : List String → Except String (List PyValue)
  | [] => .ok []
  | name :: rest =>
    match df.find? (fun p => p.1 == name) with
    | some p =>
      match select_columns df rest with
      | .ok vs => .ok (p.2 :: vs)
      | .error e => .error e
    | none => .error ("Missing column: " ++ name)

/-- The scaler consumes a numeric matrix: non-numeric cells surviving to
this point (an unencoded string or NaN bucket) fail the transform. -/
def to_numeric : List PyValue → Except String (List ℚ)
  | [] => .ok []
  | v :: rest =>
    match v with
    | .num q =>
      match to_numeric rest with
      | .ok qs => .ok (q :: qs)
      | .error e => .error e
    | .int z =>
      match to_numeric rest with
      | .ok qs => .ok ((z : ℚ) :: qs)
      | .error e => .error e
    | _ => .error "could not convert value to float"

/-- `DataPreprocessor.preprocess`: feature engineering, encoding, column
reordering to the training schema, then the fitted scaler transform. -/
def preprocess (arts : Artifacts) (r : CustomerRecord) : Except String (List ℚ) :=
  match select_columns (encode_features arts.label_encoders (engineer_features r))
      arts.feature_names with
  | .error e => .error e
  | .ok vals =>
    match to_numeric vals with
    | .error e => .error e
    | .ok vec => .ok (arts.scaler vec)

/-- `PredictionResponse` from `backend/models/response.py`. -/
structure PredictionResponse where
  churn_prediction : ℤ
  churn_probability : ℚ
  churn_label : String
  risk_level : String
deriving DecidableEq, Repr

/-- `BatchPredictionResponse` from `backend/models/response.py`. -/
structure BatchPredictionResponse where
  predictions : List PredictionResponse
  total_customers : ℕ
  predicted_churners : ℕ
  churn_rate : ℚ
deriving DecidableEq, Repr

/-- `PredictionService.predict_single`: preprocess, run the classifier,
and assemble the response; any pipeline exception propagates. -/
def predict_single (arts : Artifacts) (r : CustomerRecord) :
    Except String PredictionResponse :=
  match preprocess arts r with
  | .error e => .error e
  | .ok vec =>
    let prediction := arts.model.predict vec
    let probability := arts.model.predict_proba vec
    .ok { churn_prediction := prediction,
          churn_probability := probability,
          churn_label := if prediction = 1 then "Churn" else "No Churn",
          risk_level := get_risk_level probability }

/-- The accumulation loop of `PredictionService.predict_batch`: each
customer is predicted in input order and an exception from any record
aborts the whole loop. -/
def predict_all (arts : Artifacts) :
    List CustomerRecord → Except String (List PredictionResponse)
  | [] => .ok []
  | c :: rest =>
    match predict_single arts c with
    | .error e => .error e
    | .ok p =>
      match predict_all arts rest with
      | .error e => .error e
      | .ok ps => .ok (p :: ps)

/-- Python's round-half-to-even of a rational to an integer. -/
def round_half_even (q : ℚ) : ℤ :=
  if q - ⌊q⌋ < 1 / 2 then ⌊q⌋
  else if 1 / 2 < q - ⌊q⌋ then ⌊q⌋ + 1
  else if ⌊q⌋ % 2 = 0 then ⌊q⌋ else ⌊q⌋ + 1

/-- Python's `round(x, 4)` under exact rational semantics. -/
def py_round4 (q : ℚ) : ℚ := (round_half_even (q * 10000) : ℚ) / 10000

/-- `PredictionService.predict_batch`: predict every customer, then
aggregate total, churner count and the rounded churn rate (0 when the
batch is empty). -/
def predict_batch (arts : Artifacts) (customers : List CustomerRecord) :
    Except String BatchPredictionResponse :=
  match predict_all arts customers with
  | .error e => .error e
  | .ok predictions =>
    let total_customers := predictions.length
    let predicted_churners := predictions.countP (fun p => p.churn_prediction == 1)
    let churn_rate : ℚ :=
      if total_customers > 0 then (predicted_churners : ℚ) / total_customers else 0
    .ok { predictions := predictions,
          total_customers := total_customers,
          predicted_churners := predicted_churners,
          churn_rate := py_round4 churn_rate }

/-- The `ModelManager` singleton's state (`backend/core/model_loader.py`):
five artifact slots, each `None` until `load_artifacts` stores it. -/
structure ModelManagerState (M S E F D : Type) where
  _model : Option M
  _scaler : Option S
  _label_encoders : Option E
  _feature_names : Option F
  _model_metadata : Option D
deriving DecidableEq, Repr

/-- The state at process start: the class attributes initialise every
slot to `None`. -/
def ModelManagerState.initial {M S E F D : Type} : ModelManagerState M S E F D :=
  ⟨none, none, none, none, none⟩

/-- The state after a successful `load_artifacts`: every slot holds its
unpickled artifact. -/
def ModelManagerState.loadedState {M S E F D : Type} (m : M) (s : S) (e : E)
    (f : F) (d : D) : ModelManagerState M S E F D :=
  ⟨some m, some s, some e, some f, some d⟩

/-- The `model` property accessor: raises `RuntimeError` when the slot
is empty. -/
def ModelManagerState.model {M S E F D : Type} (st : ModelManagerState M S E F D) :
    Except String M :=
  match st._model with
  | some m => .ok m
  | none => .error "Model not loaded. Call load_artifacts() first."

/-- The `scaler` property accessor. -/
def ModelManagerState.scaler {M S E F D : Type} (st : ModelManagerState M S E F D) :
    Except String S :=
  match st._scaler with
  | some s => .ok s
  | none => .error "Scaler not loaded. Call load_artifacts() first."

/-- The `label_encoders` property accessor. -/
def ModelManagerState.label_encoders {M S E F D : Type}
    (st : ModelManagerState M S E F D) : Except String E :=
  match st._label_encoders with
  | some e => .ok e
  | none => .error "Label encoders not loaded. Call load_artifacts() first."

/-- The `feature_names` property accessor. -/
def ModelManagerState.feature_names {M S E F D : Type}
    (st : ModelManagerState M S E F D) : Except String F :=
  match st._feature_names with
  | some f => .ok f
  | none => .error "Feature names not loaded. Call load_artifacts() first."

/-- The `model_metadata` property accessor. -/
def ModelManagerState.model_metadata {M S E F D : Type}
    (st : ModelManagerState M S E F D) : Except String D :=
  match st._model_metadata with
  | some d => .ok d
  | none => .error "Model metadata not loaded. Call load_artifacts() first."

/-- `ModelManager.is_loaded`: `self._model is not None`. -/
def ModelManagerState.is_loaded {M S E F D : Type}
    (st : ModelManagerState M S E F D) : Bool :=
  st._model.isSome

/-- All five artifact slots are populated, i.e. `load_artifacts` ran to
completion. -/
def ModelManagerState.loadCompleted {M S E F D : Type}
    (st : ModelManagerState M S E F D) : Prop :=
  st._model.isSome ∧ st._scaler.isSome ∧ st._label_encoders.isSome ∧
  st._feature_names.isSome ∧ st._model_metadata.isSome

instance {M S E F D : Type} (st : ModelManagerState M S E F D) :
    Decidable st.loadCompleted := by
  unfold ModelManagerState.loadCompleted
  infer_instance

/-- `HealthResponse` from `backend/models/response.py`. -/
structure HealthResponse where
  status : String
  model_loaded : Bool
deriving DecidableEq, Repr

/-- The `/health` handler (`backend/api/routes.py`): "healthy" iff
`model_manager.is_loaded()`. -/
def health_check {M S E F D : Type} (st : ModelManagerState M S E F D) :
    HealthResponse :=
  { status := if st.is_loaded then "healthy" else "unhealthy",
    model_loaded := st.is_loaded }

/-- The states in which a request handler can run.  `main.py` registers
`load_artifacts` as the startup hook: requests are served either before
any load has run (state `initial`) or after `load_artifacts` completed
successfully (a fully loaded state); when the startup load raises, the
application aborts instead of serving. -/
def ServingReachable {M S E F D : Type} (st : ModelManagerState M S E F D) : Prop :=
  st = .initial ∨ ∃ m s e f d, st = ModelManagerState.loadedState m s e f d

/-- A value arriving in a pydantic `mode='before'` validator for the
charge fields: the relevant JSON inputs are strings and numbers. -/
inductive ChargeInput
  | str (s : String)
  | num (q : ℚ)
deriving DecidableEq, Repr

/-- Python's `str.strip()`: drop leading and trailing whitespace. -/
def pyStrip (s : String) : String :=
  ⟨((s.data.dropWhile Char.isWhitespace).reverse.dropWhile Char.isWhitespace).reverse⟩

/-- `CustomerData.parse_charges` (`backend/models/request.py`): strip a
string input, coerce the empty string to 0.0, parse the remainder with
Python's `float` (modelled by the opaque parameter `pyFloat`, `none`
standing for `ValueError`), and pass numbers through unchanged. -/
def parse_charges (pyFloat : String → Option ℚ) : ChargeInput → Except String ℚ
  | .str s =>
    let v := pyStrip s
    if v = "" then .ok 0
    else
      match pyFloat v with
      | some q => .ok q
      | none => .error ("Invalid float value: " ++ v)
  | .num q => .ok q

/-- The documented example customer from the request schema
(`json_schema_extra` in `backend/models/request.py`). -/
def exampleCustomer : CustomerRecord :=
  { gender := "Male", SeniorCitizen := 0, Partner := "Yes", Dependents := "No",
    tenure := 12, PhoneService := "Yes", MultipleLines := "No",
    InternetService := "Fiber optic", OnlineSecurity := "No",
    OnlineBackup := "Yes", DeviceProtection := "No", TechSupport := "No",
    StreamingTV := "Yes", StreamingMovies := "Yes",
    Contract := "Month-to-month", PaperlessBilling := "Yes",
    PaymentMethod := "Electronic check",
    MonthlyCharges := 171 / 2, TotalCharges := 1026 }

/-- A customer with phone service, DSL internet and no other services:
the concrete `ServiceCount` example of the spec. -/
def dslCustomer : CustomerRecord :=
  { exampleCustomer with
    InternetService := "DSL", OnlineBackup := "No",
    StreamingTV := "No", StreamingMovies := "No" }

/-- A concrete artifact bundle for exercising the pipeline: a constant
classifier, the identity scaler, no encoders, and the single schema
column `tenure`. -/
def constArtifacts : Artifacts :=
  { model := { predict := fun _ => 1, predict_proba := fun _ => 7 / 10 },
    scaler := id,
    label_encoders := [],
    feature_names := ["tenure"] }

/-- The response `predict_single` produces for `exampleCustomer` under
`constArtifacts`. -/
def exampleResponse : PredictionResponse :=
  { churn_prediction := 1, churn_probability := 7 / 10,
    churn_label := "Churn", risk_level := "High" }

/-- An artifact bundle whose schema demands a column the pipeline never
produces, so every prediction fails. -/
def bogusArtifacts : Artifacts :=
  { constArtifacts with feature_names := ["Bogus"] }

/-- An artifact bundle whose classifier predicts churn exactly when the
scaled `tenure` feature equals 1. -/
def tenureArtifacts : Artifacts :=
  { model := { predict := fun v => if v.getD 0 0 = 1 then 1 else 0,
               predict_proba := fun _ => 1 / 2 },
    scaler := id,
    label_encoders := [],
    feature_names := ["tenure"] }

/-- A batch of ten customers of which exactly three have tenure 1. -/
def tenCustomers : List CustomerRecord :=
  [{ exampleCustomer with tenure := 1 }, { exampleCustomer with tenure := 1 },
   { exampleCustomer with tenure := 1 }, { exampleCustomer with tenure := 2 },
   { exampleCustomer with tenure := 2 }, { exampleCustomer with tenure := 2 },
   { exampleCustomer with tenure := 2 }, { exampleCustomer with tenure := 2 },
   { exampleCustomer with tenure := 2 }, { exampleCustomer with tenure := 2 }]

/-- The churn response of a tenure-1 customer under `tenureArtifacts`. -/
def churnResponse : PredictionResponse :=
  { churn_prediction := 1, churn_probability := 1 / 2,
    churn_label := "Churn", risk_level := "Medium" }

/-- The no-churn response of a tenure-2 customer under
`tenureArtifacts`. -/
def noChurnResponse : PredictionResponse :=
  { churn_prediction := 0, churn_probability := 1 / 2,
    churn_label := "No Churn", risk_level := "Medium" }

/-- The batch response for `tenCustomers` under `tenureArtifacts`. -/
def tenResponse : BatchPredictionResponse :=
  { predictions :=
      [churnResponse, churnResponse, churnResponse, noChurnResponse,
       noChurnResponse, noChurnResponse, noChurnResponse, noChurnResponse,
       noChurnResponse, noChurnResponse],
    total_customers := 10, predicted_churners := 3,
    churn_rate := 3 / 10 }

/-- A generic column-rewriting function: encode the columns named in
`cols` that have a fitted encoder, pass everything else through.  The
spec-side `encodePointwise` is this function at the fixed
categorical-column list. -/
def encodeOver (encs : Encoders) (cols : List String) (p : String × PyValue) :
    String × PyValue :=
  if p.1 ∈ cols then
    match lookupEncoder encs p.1 with
    | some enc => (p.1, encodeCell enc p.2)
    | none => p
  else p

/-- A model of Python's `float` that only knows the decimal string
"85.5"; used to instantiate the charge-parsing theorem. -/
def floatOf85 (s : String) : Option ℚ :=
  if s = "85.5" then some (171 / 2) else none

/-! ## Helper lemmas -/

theorem map_eq_self {α : Type} {l : List α} {f : α → α}
    (h : ∀ a ∈ l, f a = a) : l.map f = l := by
  induction l with
  | nil => rfl
  | cons a t ih =>
    simp only [List.map_cons]
    rw [h a (List.mem_cons_self a t), ih (fun b hb => h b (List.mem_cons_of_mem a hb))]

theorem encodeStep_eq_map (encs : Encoders) (df : DataFrame) (col : String) :
    encodeStep encs df col = df.map (encodeOver encs [col]) := by
  unfold encodeStep
  by_cases hany : df.any (fun p => p.1 == col)
  · simp only [hany, if_true]
    cases hl : lookupEncoder encs col with
    | some enc =>
      apply List.map_congr_left
      intro p _
      by_cases hp : p.1 = col
      · simp [encodeOver, hp, hl]
      · simp [encodeOver, hp]
    | none =>
      have hdf : df.map (encodeOver encs [col]) = df := by
        apply map_eq_self
        intro p _
        by_cases hp : p.1 = col
        · simp [encodeOver, hp, hl]
        · simp [encodeOver, hp]
      rw [hdf]
  · have hdf : df.map (encodeOver encs [col]) = df := by
      apply map_eq_self
      intro p hp
      have hne : p.1 ≠ col := by
        intro hcontra
        exact hany (List.any_eq_true.mpr ⟨p, hp, by simp [hcontra]⟩)
      simp [encodeOver, hne]
    rw [hdf]
    simp [hany]

theorem encodeOver_cons (encs : Encoders) (col : String) (cols : List String)
    (hcol : col ∉ cols) (p : String × PyValue) :
    encodeOver encs cols (encodeOver encs [col] p) = encodeOver encs (col :: cols) p := by
  obtain ⟨pn, pv⟩ := p
  by_cases hp : pn = col
  · subst hp
    cases hl : lookupEncoder encs pn with
    | some enc => simp [encodeOver, hl, hcol]
    | none => simp [encodeOver, hl, hcol]
  · by_cases hmem : pn ∈ cols
    · simp [encodeOver, hp, hmem]
    · simp [encodeOver, hp, hmem]

theorem foldl_encodeStep (encs : Encoders) (cols : List String)
    (hnd : cols.Nodup) (df : DataFrame) :
    cols.foldl (encodeStep encs) df = df.map (encodeOver encs cols) := by
  induction cols generalizing df with
  | nil =>
    simp only [List.foldl_nil]
    rw [map_eq_self]
    intro p _
    simp [encodeOver]
  | cons c cs ih =>
    have hc : c ∉ cs := (List.nodup_cons.mp hnd).1
    have hcs : cs.Nodup := (List.nodup_cons.mp hnd).2
    simp only [List.foldl_cons]
    rw [ih hcs, encodeStep_eq_map, List.map_map]
    apply List.map_congr_left
    intro p _
    exact encodeOver_cons encs c cs hc p

theorem predict_all_ok_forall (arts : Artifacts) (cs : List CustomerRecord)
    (ps : List PredictionResponse) (h : predict_all arts cs = .ok ps) :
    List.Forall₂ (fun c p => predict_single arts c = .ok p) cs ps := by
  induction cs generalizing ps with
  | nil =>
    simp only [predict_all] at h
    cases h
    exact List.Forall₂.nil
  | cons c rest ih =>
    simp only [predict_all] at h
    cases hc : predict_single arts c with
    | error e => rw [hc] at h; cases h
    | ok p =>
      rw [hc] at h
      cases hrest : predict_all arts rest with
      | error e => rw [hrest] at h; cases h
      | ok ps2 =>
        rw [hrest] at h
        cases h
        exact List.Forall₂.cons hc (ih ps2 hrest)

theorem predict_all_length (arts : Artifacts) (cs : List CustomerRecord)
    (ps : List PredictionResponse) (h : predict_all arts cs = .ok ps) :
    ps.length = cs.length :=
  (List.Forall₂.length_eq (predict_all_ok_forall arts cs ps h)).symm

theorem predict_all_error_of_mem (arts : Artifacts) (cs : List CustomerRecord)
    (c : CustomerRecord) (e : String) (hmem : c ∈ cs)
    (herr : predict_single arts c = .error e) :
    ∃ e2, predict_all arts cs = .error e2 := by
  induction cs with
  | nil => cases hmem
  | cons d rest ih =>
    rcases List.mem_cons.mp hmem with heq | htail
    · subst heq
      exact ⟨e, by simp [predict_all, herr]⟩
    · cases hd : predict_single arts d with
      | error e3 => exact ⟨e3, by simp [predict_all, hd]⟩
      | ok p =>
        obtain ⟨e2, h2⟩ := ih htail
        exact ⟨e2, by simp [predict_all, hd, h2]⟩

theorem py_round4_zero : py_round4 0 = 0 := by
  have h : (0 : ℚ) * 10000 = 0 := by norm_num
  rw [py_round4, h]
  norm_num [round_half_even]

theorem py_round4_three_tenths : py_round4 (3 / 10) = 3 / 10 := by
  have h : (3 : ℚ) / 10 * 10000 = ((3000 : ℤ) : ℚ) := by norm_num
  rw [py_round4, h]
  rw [round_half_even]
  norm_num

/-! ## Claim theorems -/

/-- C1: for every probability p, the risk classification returns "Low"
if p < 0.3, "Medium" if 0.3 ≤ p < 0.6 and "High" if p ≥ 0.6 (the
boundary values 0.3 and 0.6 go to the higher tier), and it is a total
function whose result is always one of the three tiers. -/
theorem risk_level_spec (p : ℚ) :
    (p < 3 / 10 → get_risk_level p = "Low") ∧
    (3 / 10 ≤ p → p < 6 / 10 → get_risk_level p = "Medium") ∧
    (6 / 10 ≤ p → get_risk_level p = "High") ∧
    (get_risk_level p = "Low" ∨ get_risk_level p = "Medium" ∨
     get_risk_level p = "High") := by
  unfold get_risk_level RISK_THRESHOLD_LOW RISK_THRESHOLD_MEDIUM
  refine ⟨fun h1 => ?_, fun h1 h2 => ?_, fun h1 => ?_, ?_⟩
  · rw [if_pos h1]
  · rw [if_neg (not_lt.mpr h1), if_pos h2]
  · rw [if_neg (not_lt.mpr (by linarith)), if_neg (not_lt.mpr h1)]
  · split_ifs <;> simp

/-- Witness for C1: the tiers at 0.1, at the boundary 0.3 (Medium, the
higher tier) and at the boundary 0.6 (High, the higher tier). -/
theorem risk_level_spec_witness :
    get_risk_level (1 / 10) = "Low" ∧ get_risk_level (3 / 10) = "Medium" ∧
    get_risk_level (6 / 10) = "High" :=
  ⟨(risk_level_spec (1 / 10)).1 (by norm_num),
   (risk_level_spec (3 / 10)).2.1 (by norm_num) (by norm_num),
   (risk_level_spec (6 / 10)).2.2.1 (by norm_num)⟩

/-- C2: the engineered AvgMonthlyRate column equals
TotalCharges / max(tenure, 1): for tenure = 0 it equals TotalCharges
(no division by zero) and for tenure > 0 it equals
TotalCharges / tenure exactly. -/
theorem avg_monthly_rate_spec (r : CustomerRecord) :
    ("AvgMonthlyRate", PyValue.num (avgMonthlyRate r.TotalCharges r.tenure)) ∈
      engineer_features r ∧
    avgMonthlyRate r.TotalCharges r.tenure =
      r.TotalCharges / ((max r.tenure 1 : ℕ) : ℚ) ∧
    (r.tenure = 0 → avgMonthlyRate r.TotalCharges r.tenure = r.TotalCharges) ∧
    (0 < r.tenure →
      avgMonthlyRate r.TotalCharges r.tenure = r.TotalCharges / (r.tenure : ℚ)) := by
  refine ⟨?_, ?_, fun h0 => ?_, fun hpos => ?_⟩
  · simp [engineer_features]
  · cases ht : r.tenure with
    | zero => simp [avgMonthlyRate]
    | succ n => simp [avgMonthlyRate, Nat.max_eq_left (Nat.succ_le_succ (Nat.zero_le n))]
  · rw [h0]
    simp [avgMonthlyRate]
  · simp [avgMonthlyRate, Nat.pos_iff_ne_zero.mp hpos]

/-- Witness for C2: for the documented example customer
(TotalCharges = 1026, tenure = 12) the rate is 1026/12 = 85.5, and with
tenure set to 0 the rate equals TotalCharges itself. -/
theorem avg_monthly_rate_spec_witness :
    avgMonthlyRate (1026 : ℚ) 12 = (171 : ℚ) / 2 ∧
    avgMonthlyRate (1026 : ℚ) 0 = (1026 : ℚ) := by
  constructor
  · have h := (avg_monthly_rate_spec exampleCustomer).2.2.2 (by norm_num [exampleCustomer])
    rw [show exampleCustomer.TotalCharges = (1026 : ℚ) from rfl,
      show exampleCustomer.tenure = 12 from rfl] at h
    rw [h]
    norm_num
  · have h := (avg_monthly_rate_spec { exampleCustomer with tenure := 0 }).2.2.1 rfl
    exact h

/-- C3: the engineered ServiceCount column equals the number of the 8
service indicator columns that are active, where a column is active iff
its value is "Yes", except InternetService, which is active iff its
value is not "No"; in particular PhoneService = "Yes",
InternetService = "DSL" and "No" for the other six yields
ServiceCount = 2. -/
theorem service_count_spec (r : CustomerRecord) :
    serviceCount r = service_cols.countP (activeService r) ∧
    ("ServiceCount", PyValue.int (serviceCount r)) ∈ engineer_features r ∧
    (r.PhoneService = "Yes" → r.InternetService = "DSL" →
     r.OnlineSecurity = "No" → r.OnlineBackup = "No" →
     r.DeviceProtection = "No" → r.TechSupport = "No" →
     r.StreamingTV = "No" → r.StreamingMovies = "No" → serviceCount r = 2) := by
  refine ⟨?_, ?_, fun h1 h2 h3 h4 h5 h6 h7 h8 => ?_⟩
  · simp [serviceCount, service_cols, activeService, strCol,
      List.countP_cons, List.countP_nil]
    split_ifs <;> omega
  · simp [engineer_features]
  · simp [serviceCount, service_cols, strCol, h1, h2, h3, h4, h5, h6, h7, h8]

/-- Witness for C3: the concrete customer with phone service, DSL
internet and no other services has ServiceCount 2. -/
theorem service_count_spec_witness : serviceCount dslCustomer = 2 :=
  (service_count_spec dslCustomer).2.2 rfl rfl rfl rfl rfl rfl rfl rfl

theorem predict_single_example_eval :
    predict_single constArtifacts exampleCustomer = .ok exampleResponse := by
  simp [predict_single, preprocess, encode_features, categorical_cols,
    encodeStep, lookupEncoder, engineer_features, to_dataframe,
    exampleCustomer, constArtifacts, select_columns, to_numeric,
    get_risk_level, RISK_THRESHOLD_LOW, RISK_THRESHOLD_MEDIUM, exampleResponse]
  norm_num

/-- C4: for every prediction result produced by predict_single, the
churn label is "Churn" exactly when the churn prediction is 1, and
"No Churn" otherwise. -/
theorem churn_label_iff_prediction (arts : Artifacts) (r : CustomerRecord)
    (resp : PredictionResponse) (h : predict_single arts r = .ok resp) :
    (resp.churn_label = "Churn" ↔ resp.churn_prediction = 1) ∧
    (resp.churn_prediction ≠ 1 → resp.churn_label = "No Churn") := by
  unfold predict_single at h
  cases hp : preprocess arts r with
  | error e => rw [hp] at h; cases h
  | ok vec =>
    rw [hp] at h
    cases h
    by_cases h1 : arts.model.predict vec = 1
    · simp [h1]
    · simp [h1]

/-- Witness for C4: the label/prediction consistency at the concrete
response the pipeline produces for the documented example customer. -/
theorem churn_label_iff_prediction_witness :
    (exampleResponse.churn_label = "Churn" ↔ exampleResponse.churn_prediction = 1) ∧
    (exampleResponse.churn_prediction ≠ 1 → exampleResponse.churn_label = "No Churn") :=
  churn_label_iff_prediction constArtifacts exampleCustomer exampleResponse
    predict_single_example_eval

theorem predict_batch_ten_eval :
    predict_batch tenureArtifacts tenCustomers = .ok tenResponse := by
  have h1 : predict_single tenureArtifacts { exampleCustomer with tenure := 1 } =
      .ok churnResponse := by
    simp [predict_single, preprocess, encode_features, categorical_cols,
      encodeStep, lookupEncoder, engineer_features, to_dataframe,
      exampleCustomer, tenureArtifacts, select_columns, to_numeric,
      get_risk_level, RISK_THRESHOLD_LOW, RISK_THRESHOLD_MEDIUM, churnResponse]
    norm_num
  have h2 : predict_single tenureArtifacts { exampleCustomer with tenure := 2 } =
      .ok noChurnResponse := by
    simp [predict_single, preprocess, encode_features, categorical_cols,
      encodeStep, lookupEncoder, engineer_features, to_dataframe,
      exampleCustomer, tenureArtifacts, select_columns, to_numeric,
      get_risk_level, RISK_THRESHOLD_LOW, RISK_THRESHOLD_MEDIUM, noChurnResponse]
    norm_num
  simp [predict_batch, predict_all, tenCustomers, tenResponse, h1, h2,
    churnResponse, noChurnResponse, py_round4, round_half_even]
  norm_num [Int.floor_eq_iff]

/-- C5: when every per-record prediction succeeds, the batch churn rate
equals the number of churn predictions divided by the record count,
rounded to 4 decimals, and equals 0 for the empty batch; 3 churners
among 10 customers give rate 0.3. -/
theorem churn_rate_spec (arts : Artifacts) (cs : List CustomerRecord)
    (resp : BatchPredictionResponse) (h : predict_batch arts cs = .ok resp) :
    resp.total_customers = cs.length ∧
    resp.predicted_churners =
      resp.predictions.countP (fun p => p.churn_prediction == 1) ∧
    resp.churn_rate = py_round4 (if resp.total_customers = 0 then 0 else
      (resp.predicted_churners : ℚ) / (resp.total_customers : ℚ)) ∧
    (cs = [] → resp.churn_rate = 0) ∧
    (resp.total_customers = 10 → resp.predicted_churners = 3 →
      resp.churn_rate = 3 / 10) := by
  unfold predict_batch at h
  cases hp : predict_all arts cs with
  | error e => rw [hp] at h; cases h
  | ok ps =>
    rw [hp] at h
    cases h
    have hlen := predict_all_length arts cs ps hp
    refine ⟨hlen, rfl, ?_, fun hnil => ?_, fun h10 h3 => ?_⟩
    · rcases Nat.eq_zero_or_pos ps.length with h0 | hpos
      · simp [h0]
      · simp [hpos, Nat.pos_iff_ne_zero.mp hpos]
    · subst hnil
      simp only [predict_all] at hp
      cases hp
      simp [py_round4_zero]
    · simp only at h10 h3
      simp only [h10, h3]
      norm_num [py_round4_three_tenths]

/-- Witness for C5: the concrete ten-customer batch with three churners
evaluates to churn rate 3/10. -/
theorem churn_rate_spec_witness :
    predict_batch tenureArtifacts tenCustomers = .ok tenResponse ∧
    tenResponse.churn_rate = 3 / 10 :=
  ⟨predict_batch_ten_eval,
   (churn_rate_spec tenureArtifacts tenCustomers tenResponse
      predict_batch_ten_eval).2.2.2.2 rfl rfl⟩

/-- C7: if predict_single fails on any record of a batch then
predict_batch fails as a whole (no partial results), and on success the
responses correspond one-to-one, in input order, to the per-record
predictions. -/
theorem batch_all_or_nothing (arts : Artifacts) (cs : List CustomerRecord) :
    ((∃ c ∈ cs, ∃ e, predict_single arts c = .error e) →
      ∃ e2, predict_batch arts cs = .error e2) ∧
    (∀ resp, predict_batch arts cs = .ok resp →
      List.Forall₂ (fun c p => predict_single arts c = .ok p) cs
        resp.predictions) := by
  constructor
  · rintro ⟨c, hmem, e, herr⟩
    obtain ⟨e2, h2⟩ := predict_all_error_of_mem arts cs c e hmem herr
    exact ⟨e2, by simp [predict_batch, h2]⟩
  · intro resp h
    unfold predict_batch at h
    cases hp : predict_all arts cs with
    | error e => rw [hp] at h; cases h
    | ok ps =>
      rw [hp] at h
      cases h
      exact predict_all_ok_forall arts cs ps hp

theorem predict_single_bogus_eval :
    predict_single bogusArtifacts exampleCustomer =
      .error ("Missing column: " ++ "Bogus") := by
  simp [predict_single, preprocess, encode_features, categorical_cols,
    encodeStep, lookupEncoder, engineer_features, to_dataframe,
    exampleCustomer, bogusArtifacts, constArtifacts, select_columns, to_numeric]

/-- Witness for C7: a schema naming a column the pipeline cannot produce
makes the single prediction fail, hence the whole one-element batch
fails. -/
theorem batch_all_or_nothing_witness :
    ∃ e2, predict_batch bogusArtifacts [exampleCustomer] = .error e2 :=
  (batch_all_or_nothing bogusArtifacts [exampleCustomer]).1
    ⟨exampleCustomer, List.mem_singleton.mpr rfl,
     "Missing column: " ++ "Bogus", predict_single_bogus_eval⟩

/-- C6: for every artifact slot of the model manager (classifier,
scaler, label encoders, feature names, metadata), accessing it in the
pre-load state fails with an explicit "not loaded" error instead of
returning a value. -/
theorem artifact_access_before_load_fails (M S E F D : Type) :
    (ModelManagerState.initial : ModelManagerState M S E F D).model =
      .error "Model not loaded. Call load_artifacts() first." ∧
    (ModelManagerState.initial : ModelManagerState M S E F D).scaler =
      .error "Scaler not loaded. Call load_artifacts() first." ∧
    (ModelManagerState.initial : ModelManagerState M S E F D).label_encoders =
      .error "Label encoders not loaded. Call load_artifacts() first." ∧
    (ModelManagerState.initial : ModelManagerState M S E F D).feature_names =
      .error "Feature names not loaded. Call load_artifacts() first." ∧
    (ModelManagerState.initial : ModelManagerState M S E F D).model_metadata =
      .error "Model metadata not loaded. Call load_artifacts() first." :=
  ⟨rfl, rfl, rfl, rfl, rfl⟩

/-- C8: the encoding stage maps each column of the frame independently:
a column in both the fixed categorical-column list and the encoder
mapping has its (stringified) value replaced by the encoder's integer
code, and every other column passes through unchanged. -/
theorem encode_features_pointwise (encs : Encoders) (df : DataFrame) :
    encode_features encs df = df.map (encodePointwise encs) := by
  rw [encode_features, foldl_encodeStep encs categorical_cols (by decide) df]
  apply List.map_congr_left
  intro p _
  by_cases hmem : p.1 ∈ categorical_cols
  · cases hl : lookupEncoder encs p.1 with
    | some enc => simp [encodeOver, encodePointwise, hmem, hl]
    | none => simp [encodeOver, encodePointwise, hmem, hl]
  · simp [encodeOver, encodePointwise, hmem]

/-- C9: in every state a request handler can observe, the health check
reports "unhealthy" with model_loaded = false while the startup load
has not completed, and "healthy" with model_loaded = true once all
artifacts are loaded. -/
theorem health_reflects_readiness {M S E F D : Type}
    (st : ModelManagerState M S E F D) (h : ServingReachable st) :
    (¬ st.loadCompleted →
      health_check st = { status := "unhealthy", model_loaded := false }) ∧
    (st.loadCompleted →
      health_check st = { status := "healthy", model_loaded := true }) := by
  rcases h with hinit | ⟨m, s, e, f, d, hloaded⟩
  · subst hinit
    refine ⟨fun _ => rfl, fun hc => ?_⟩
    rcases hc with ⟨hm, _⟩
    simp [ModelManagerState.initial] at hm
  · subst hloaded
    refine ⟨fun hn => ?_, fun _ => rfl⟩
    exact absurd
      (by simp [ModelManagerState.loadedState, ModelManagerState.loadCompleted]) hn

/-- Witness for C9: the pre-load state reports unhealthy and a loaded
state reports healthy. -/
theorem health_reflects_readiness_witness :
    health_check (ModelManagerState.initial : ModelManagerState Unit Unit Unit Unit Unit) =
      { status := "unhealthy", model_loaded := false } ∧
    health_check (ModelManagerState.loadedState () () () () ()) =
      { status := "healthy", model_loaded := true } :=
  ⟨(health_reflects_readiness ModelManagerState.initial (Or.inl rfl)).1
     (by simp [ModelManagerState.initial, ModelManagerState.loadCompleted]),
   (health_reflects_readiness (ModelManagerState.loadedState () () () () ())
     (Or.inr ⟨(), (), (), (), (), rfl⟩)).2
     (by simp [ModelManagerState.loadedState, ModelManagerState.loadCompleted])⟩

/-- C10: at the request boundary, a charge value supplied as a string is
accepted: an empty or whitespace-only string is coerced to 0.0, a
string Python's float parses yields that value, any other string is
rejected with a validation error, and numeric inputs pass through. -/
theorem parse_charges_spec (pyFloat : String → Option ℚ) (s : String) :
    (pyStrip s = "" → parse_charges pyFloat (.str s) = .ok 0) ∧
    (∀ q, pyStrip s ≠ "" → pyFloat (pyStrip s) = some q →
      parse_charges pyFloat (.str s) = .ok q) ∧
    (pyStrip s ≠ "" → pyFloat (pyStrip s) = none →
      parse_charges pyFloat (.str s) =
        .error ("Invalid float value: " ++ pyStrip s)) ∧
    (∀ q, parse_charges pyFloat (.num q) = .ok q) := by
  refine ⟨fun h => ?_, fun q hne hq => ?_, fun hne hq => ?_, fun q => rfl⟩
  · simp [parse_charges, h]
  · simp [parse_charges, hne, hq]
  · simp [parse_charges, hne, hq]

/-- Witness for C10: the empty and whitespace-only strings coerce to 0,
the numeric string " 85.5 " parses to 85.5, and "abc" is rejected. -/
theorem parse_charges_spec_witness :
    parse_charges floatOf85 (.str "") = .ok 0 ∧
    parse_charges floatOf85 (.str "  ") = .ok 0 ∧
    parse_charges floatOf85 (.str " 85.5 ") = .ok (171 / 2) ∧
    parse_charges floatOf85 (.str "abc") =
      .error ("Invalid float value: " ++ "abc") :=
  ⟨(parse_charges_spec floatOf85 "").1 (by decide),
   (parse_charges_spec floatOf85 "  ").1 (by decide),
   (parse_charges_spec floatOf85 " 85.5 ").2.1 (171 / 2) (by decide) rfl,
   (parse_charges_spec floatOf85 "abc").2.2.1 (by decide) rfl⟩
